import Mathlib

/-!
Shallow embedding of the data-profiling chatbot (src/utils.py and src/app.py).

Modelling conventions:
* A pandas DataFrame is a `Frame`: an ordered list of named columns.  Each
  column is either numeric (values modelled as rationals `ℚ`) or textual
  (values modelled as strings); `pd.api.types.is_numeric_dtype` is the
  `ColData.numeric` case.
* Python functions that return `x` or `None` return `Option`-typed values.
* External library calls (pandas `read_excel`/`describe`, pandasql `sqldf`)
  are parameters of the embedded functions: the wrappers in `utils.py` are
  verified for every possible behaviour of the external call.  A Python call
  that may raise is modelled by the outcome type `PyOutcome` (normal result
  or exception text).
-/

/-- A pandas column: numeric dtype (rationals) or object/text dtype. -/
inductive ColData : Type
  | numeric (vals : List ℚ)
  | textual (vals : List String)
deriving DecidableEq

/-- Number of entries in a column. -/
def ColData.size : ColData → ℕ
  | .numeric vs => vs.length
  | .textual vs => vs.length

/-- A DataFrame: ordered association list of column name to column data. -/
structure Frame : Type where
  cols : List (String × ColData)
deriving DecidableEq

/-- `df.columns` as a list of names. -/
def Frame.names (f : Frame) : List String := f.cols.map Prod.fst

/-- `df[c]`: the data of the first column labelled `c`. -/
def Frame.getCol (f : Frame) (c : String) : Option ColData :=
  (f.cols.find? (fun p => p.1 == c)).map Prod.snd

/-- `df.shape[0]`: row count (pandas columns all share one length). -/
def Frame.nrows (f : Frame) : ℕ :=
  match f.cols with
  | [] => 0
  | p :: _ => p.2.size

/-- `df.shape[1]`: column count. -/
def Frame.ncols (f : Frame) : ℕ := f.cols.length

/-- `df.drop(columns=[c])`: remove every column labelled `c`. -/
def Frame.dropColumn (f : Frame) (c : String) : Frame :=
  ⟨f.cols.filter (fun p => p.1 ≠ c)⟩

/-- Outcome of a Python call that can raise: a value, or an exception
whose rendered text is recorded. -/
inductive PyOutcome (α : Type) : Type
  | ok (v : α)
  | exc (msg : String)
deriving DecidableEq

/-- Outcome of `pd.read_excel`: a frame, a `FileNotFoundError`, or some
other exception with text `msg`. -/
inductive ReadExcelOutcome : Type
  | ok (df : Frame)
  | fileNotFound
  | err (msg : String)
deriving DecidableEq

/-- `utils.load_data`, with the external `pd.read_excel` call passed in as
`read_excel`.  Returns the `(df, error_message)` pair of the source. -/
def load_data (read_excel : String → ReadExcelOutcome) (file_path : String) :
    Option Frame × Option String :=
  match read_excel file_path with
  | .ok df =>
      let df' := if "Unnamed: 0" ∈ df.names then df.dropColumn "Unnamed: 0" else df
      (some df', none)
  | .fileNotFound => (none, some s!"Error: The file '{file_path}' was not found.")
  | .err e => (none, some s!"Error loading Excel file: {e}")

/-- `utils.get_dataframe_shape`. -/
def get_dataframe_shape (df : Option Frame) : String :=
  match df with
  | some f => s!"The DataFrame has {f.nrows} rows and {f.ncols} columns."
  | none => "DataFrame is not loaded."

/-- `utils.get_column_statistics`, with the external
`Series.describe().to_string()` rendering passed in as `describe`. -/
def get_column_statistics (describe : ColData → String) (df : Option Frame)
    (column_name : String) : String :=
  match df with
  | none => "DataFrame is not loaded."
  | some f =>
      match f.getCol column_name with
      | none => s!"Column '{column_name}' not found in the DataFrame."
      | some c => describe c

/-- Insert `x` into an already ≤-sorted list of rationals. -/
def insertSorted (x : ℚ) : List ℚ → List ℚ
  | [] => [x]
  | y :: ys => if x ≤ y then x :: y :: ys else y :: insertSorted x ys

/-- Sort a list of rationals ascending (insertion sort). -/
def sortVals (xs : List ℚ) : List ℚ := xs.foldr insertSorted []

/-- `Series.quantile(q)` with pandas' default linear interpolation: on the
sorted values `s` of length `n`, the position is `q*(n-1)`; writing `i` for
its floor and `g` for its fractional part, the quantile is
`s[i] + g*(s[i+1]-s[i])`.  (On an empty series pandas returns NaN; we return
0 — the value is only ever compared against an empty row set there.) -/
def quantile (vals : List ℚ) (q : ℚ) : ℚ :=
  let s := sortVals vals
  let n := s.length
  if n = 0 then 0
  else
    let pos : ℚ := q * ((n : ℚ) - 1)
    let i : ℕ := pos.floor.toNat
    let g : ℚ := pos - (i : ℚ)
    let xi := s.getD i 0
    let xj := s.getD (i + 1) xi
    xi + g * (xj - xi)

/-- Count of rows flagged by `df[(df[c] < lb) | (df[c] > ub)]`: the rows of
the column strictly below `lb` or strictly above `ub`. -/
def outlierCount (vals : List ℚ) (lb ub : ℚ) : ℕ :=
  (vals.filter (fun v => decide (v < lb) || decide (ub < v))).length

/-- `utils.detect_outliers_iqr`. -/
def detect_outliers_iqr (df : Option Frame) (column_name : String) : String :=
  match df with
  | none => "DataFrame is not loaded."
  | some f =>
      match f.getCol column_name with
      | none => s!"Column '{column_name}' not found in the DataFrame."
      | some (.textual _) =>
          s!"Outlier detection (IQR method) is only applicable to numerical columns. '{column_name}' is not numerical."
      | some (.numeric vals) =>
          let Q1 := quantile vals (1/4)
          let Q3 := quantile vals (3/4)
          let IQR := Q3 - Q1
          let lower_bound := Q1 - 3/2 * IQR
          let upper_bound := Q3 + 3/2 * IQR
          let k := outlierCount vals lower_bound upper_bound
          if k ≠ 0 then
            s!" number of outliers detected in column '{column_name}' (IQR method):\n" ++ toString k
          else
            s!"No outliers detected in column '{column_name}' (IQR method)."

/-- The environment handed to pandasql in `run_pandasql_query`: the literal
dict `\x7b"df": df\x7d` of the source, one binding. -/
def query_env (df : Frame) : List (String × Frame) := [("df", df)]

/-- `utils.run_pandasql_query`, with the external `pandasql.sqldf` call
passed in as `sqldf`.  pandasql returns a DataFrame for a result-set query,
Python `None` for a statement with no result set, or raises — hence the
`Option Frame` inside the outcome (the caller in `app.py` guards
`result is not None` after checking the error slot). -/
def run_pandasql_query
    (sqldf : String → List (String × Frame) → PyOutcome (Option Frame))
    (query : String) (df : Frame) : Option Frame × Option String :=
  match sqldf query (query_env df) with
  | .ok result => (result, none)
  | .exc e => (none, some s!"Error running SQL query: {e}")

/-! ### The request handler of `app.py` (`main`, lines 181–216) -/

/-- The first sentinel of `app.py` line 194. -/
def sentinelNoColumn : String := "Please specify a column to detect outliers in."

/-- The second sentinel of `app.py` line 196. -/
def sentinelCategorical : String :=
  "Cannot process numerical statistics for categorical columns. Please specify a numerical column."

/-- The SQL keywords of `app.py` lines 200–201. -/
def sqlKeywords : List String :=
  ["SELECT", "PRAGMA", "CREATE", "INSERT", "UPDATE", "DELETE", "DROP", "ALTER"]

/-- Python `str.upper()` (the texts compared here are ASCII). -/
def pyUpper (s : String) : String := s.map Char.toUpper

/-- The three ways `main` dispatches the final response text. -/
inductive Dispatch : Type
  | warning (msg : String)
  | runQuery (sql : String)
  | freeText (msg : String)
deriving DecidableEq

/-- The classification chain of `app.py` lines 194–216: sentinel strings
become warnings, text whose uppercasing starts with a SQL keyword is run as
a query, anything else is written verbatim. -/
def classify_response (s : String) : Dispatch :=
  if s = sentinelNoColumn then .warning s
  else if s = sentinelCategorical then .warning s
  else if sqlKeywords.any (fun p => p.isPrefixOf (pyUpper s)) then .runQuery s
  else .freeText s

/-- One agent-executor invocation: the payload of
`agent_executor.invoke(\x7b"input": ..., "chat_history": []\x7d)`. -/
structure AgentCall : Type where
  input : String
  chat_history : List String
deriving DecidableEq

/-- What the handler finally shows for one question. -/
inductive HandlerOutput : Type
  | warn (msg : String)
  | queryRun (sql : String) (res : Option Frame × Option String)
  | text (msg : String)
deriving DecidableEq

/-- The request handler (`app.py` `main`, lines 181–216): invoke the agent
on the question with an EMPTY chat history (line 181), then dispatch on the
response text.  `invoke` is the external agent executor (closed over the
loaded frame through its tools); `session` is whatever interaction history
the enclosing session has accumulated — the source never passes it to the
agent. -/
def handle_question
    (invoke : Frame → AgentCall → String)
    (sqldf : String → List (String × Frame) → PyOutcome (Option Frame))
    (df : Frame) (question : String) (session : List String) : HandlerOutput :=
  let final_response_content := invoke df ⟨question, []⟩
  match classify_response final_response_content with
  | .warning m => .warn m
  | .runQuery q => .queryRun q (run_pandasql_query sqldf q df)
  | .freeText m => .text m

/-! ### State-threaded variants of the three helpers

The helpers receive the table by reference; to talk about frame effects we
thread the table state through each helper explicitly, mirroring the source
statement by statement.  Every pandas operation the source uses (`.shape`,
`.columns`, `.describe`, `.quantile`, boolean-mask indexing) returns a new
value and leaves its receiver untouched, and the source never rebinds `df`,
so each step passes the state on unchanged. -/

/-- `get_dataframe_shape` with the table state threaded explicitly. -/
def get_dataframe_shape_run (st : Option Frame) : String × Option Frame :=
  match st with
  | some f =>
      let rows := f.nrows
      let cols := f.ncols
      (s!"The DataFrame has {rows} rows and {cols} columns.", st)
  | none => ("DataFrame is not loaded.", st)

/-- `get_column_statistics` with the table state threaded explicitly. -/
def get_column_statistics_run (describe : ColData → String) (column_name : String)
    (st : Option Frame) : String × Option Frame :=
  match st with
  | none => ("DataFrame is not loaded.", st)
  | some f =>
      match f.getCol column_name with
      | none => (s!"Column '{column_name}' not found in the DataFrame.", st)
      | some c => (describe c, st)

/-- `detect_outliers_iqr` with the table state threaded explicitly. -/
def detect_outliers_iqr_run (column_name : String) (st : Option Frame) :
    String × Option Frame :=
  match st with
  | none => ("DataFrame is not loaded.", st)
  | some f =>
      match f.getCol column_name with
      | none => (s!"Column '{column_name}' not found in the DataFrame.", st)
      | some (.textual _) =>
          (s!"Outlier detection (IQR method) is only applicable to numerical columns. '{column_name}' is not numerical.", st)
      | some (.numeric vals) =>
          let Q1 := quantile vals (1/4)
          let Q3 := quantile vals (3/4)
          let IQR := Q3 - Q1
          let lower_bound := Q1 - 3/2 * IQR
          let upper_bound := Q3 + 3/2 * IQR
          let k := outlierCount vals lower_bound upper_bound
          if k ≠ 0 then
            (s!" number of outliers detected in column '{column_name}' (IQR method):\n" ++ toString k, st)
          else
            (s!"No outliers detected in column '{column_name}' (IQR method).", st)

/-- A column name absent from the frame makes `df[c]` lookup fail. -/
theorem getCol_eq_none_of_not_mem (f : Frame) (c : String) (h : c ∉ f.names) :
    f.getCol c = none := by
  unfold Frame.getCol
  rw [List.find?_eq_none.mpr]
  · rfl
  · intro p hp
    simp only [beq_iff_eq]
    intro hc
    exact h (hc ▸ List.mem_map_of_mem Prod.fst hp)

/-- Each run-variant returns the pure helper's string and passes the table
state through unchanged: `get_dataframe_shape`. -/
theorem get_dataframe_shape_run_eq (st : Option Frame) :
    get_dataframe_shape_run st = (get_dataframe_shape st, st) := by
  cases st <;> rfl

/-- Run-variant versus pure helper: `get_column_statistics`. -/
theorem get_column_statistics_run_eq (describe : ColData → String)
    (column_name : String) (st : Option Frame) :
    get_column_statistics_run describe column_name st =
      (get_column_statistics describe st column_name, st) := by
  cases st with
  | none => rfl
  | some f =>
      cases h : f.getCol column_name <;>
        simp [get_column_statistics_run, get_column_statistics, h]

/-- Run-variant versus pure helper: `detect_outliers_iqr`. -/
theorem detect_outliers_iqr_run_eq (column_name : String) (st : Option Frame) :
    detect_outliers_iqr_run column_name st = (detect_outliers_iqr st column_name, st) := by
  cases st with
  | none => rfl
  | some f =>
      cases h : f.getCol column_name with
      | none => simp [detect_outliers_iqr_run, detect_outliers_iqr, h]
      | some c =>
          cases c with
          | textual vs => simp [detect_outliers_iqr_run, detect_outliers_iqr, h]
          | numeric vals =>
              simp only [detect_outliers_iqr_run, detect_outliers_iqr, h]
              split <;> rfl

/-- The two sentinels differ, so the warning branch is reached from either. -/
theorem classify_response_warning (s : String)
    (h : s = sentinelNoColumn ∨ s = sentinelCategorical) :
    classify_response s = .warning s := by
  unfold classify_response
  rcases h with h | h
  · rw [if_pos h]
  · rw [if_neg (by rw [h]; with_unfolding_all decide), if_pos h]

/-- A non-sentinel response whose uppercasing starts with a SQL keyword is
classified as a query. -/
theorem classify_response_query (s : String)
    (h1 : s ≠ sentinelNoColumn) (h2 : s ≠ sentinelCategorical)
    (h3 : (sqlKeywords.any fun p => p.isPrefixOf (pyUpper s)) = true) :
    classify_response s = .runQuery s := by
  unfold classify_response
  rw [if_neg h1, if_neg h2, if_pos h3]

/-- A non-sentinel response with no SQL keyword prefix is free text. -/
theorem classify_response_text (s : String)
    (h1 : s ≠ sentinelNoColumn) (h2 : s ≠ sentinelCategorical)
    (h3 : (sqlKeywords.any fun p => p.isPrefixOf (pyUpper s)) = false) :
    classify_response s = .freeText s := by
  unfold classify_response
  rw [if_neg h1, if_neg h2, if_neg (by simp [h3])]

/-! ### Claim theorems -/

/-- C1: on a numeric column present in the frame, `detect_outliers_iqr`
takes Q1 and Q3 as the 0.25 and 0.75 quantiles of the column, flags exactly
the rows strictly below `Q1 - 1.5*(Q3-Q1)` or strictly above
`Q3 + 1.5*(Q3-Q1)`, returns a message carrying the flagged count when it is
nonzero, and otherwise the fixed no-outlier message. -/
theorem detect_outliers_iqr_spec (f : Frame) (column_name : String) (vals : List ℚ)
    (h : f.getCol column_name = some (.numeric vals)) :
    (outlierCount vals
        (quantile vals (1/4) - 3/2 * (quantile vals (3/4) - quantile vals (1/4)))
        (quantile vals (3/4) + 3/2 * (quantile vals (3/4) - quantile vals (1/4))) =
      (vals.filter (fun v =>
        decide (v < quantile vals (1/4) - 3/2 * (quantile vals (3/4) - quantile vals (1/4))) ||
        decide (quantile vals (3/4) + 3/2 * (quantile vals (3/4) - quantile vals (1/4)) < v))).length) ∧
    (outlierCount vals
        (quantile vals (1/4) - 3/2 * (quantile vals (3/4) - quantile vals (1/4)))
        (quantile vals (3/4) + 3/2 * (quantile vals (3/4) - quantile vals (1/4))) ≠ 0 →
      detect_outliers_iqr (some f) column_name =
        s!" number of outliers detected in column '{column_name}' (IQR method):\n" ++
          toString (outlierCount vals
            (quantile vals (1/4) - 3/2 * (quantile vals (3/4) - quantile vals (1/4)))
            (quantile vals (3/4) + 3/2 * (quantile vals (3/4) - quantile vals (1/4))))) ∧
    (outlierCount vals
        (quantile vals (1/4) - 3/2 * (quantile vals (3/4) - quantile vals (1/4)))
        (quantile vals (3/4) + 3/2 * (quantile vals (3/4) - quantile vals (1/4))) = 0 →
      detect_outliers_iqr (some f) column_name =
        s!"No outliers detected in column '{column_name}' (IQR method).") := by
  refine ⟨rfl, fun hk => ?_, fun hk => ?_⟩ <;> simp only [detect_outliers_iqr, h]
  · rw [if_pos hk]
  · rw [if_neg (not_not_intro hk)]

/-- C1 witness: a concrete numeric column with exactly one outlier. -/
theorem detect_outliers_iqr_spec_witness :
    detect_outliers_iqr (some ⟨[("x", ColData.numeric [1, 2, 3, 4, 100])]⟩) "x" =
      " number of outliers detected in column 'x' (IQR method):\n1" := by
  have h := (detect_outliers_iqr_spec ⟨[("x", ColData.numeric [1, 2, 3, 4, 100])]⟩ "x"
    [1, 2, 3, 4, 100] rfl).2.1 (by with_unfolding_all decide)
  rw [h]
  with_unfolding_all decide

/-- C2: the request handler classifies the agent's final response text into
exactly one of three cases and dispatches accordingly: a sentinel string is
shown as a warning (no query runs), otherwise text whose uppercasing starts
with one of the eight SQL keywords is sent to the embedded query evaluator,
and otherwise the text is shown verbatim. -/
theorem handle_question_dispatch
    (invoke : Frame → AgentCall → String)
    (sqldf : String → List (String × Frame) → PyOutcome (Option Frame))
    (df : Frame) (question : String) (session : List String) (s : String)
    (hs : invoke df ⟨question, []⟩ = s) :
    ((s = sentinelNoColumn ∨ s = sentinelCategorical) →
      handle_question invoke sqldf df question session = .warn s) ∧
    (s ≠ sentinelNoColumn → s ≠ sentinelCategorical →
      (sqlKeywords.any fun p => p.isPrefixOf (pyUpper s)) = true →
      handle_question invoke sqldf df question session =
        .queryRun s (run_pandasql_query sqldf s df)) ∧
    (s ≠ sentinelNoColumn → s ≠ sentinelCategorical →
      (sqlKeywords.any fun p => p.isPrefixOf (pyUpper s)) = false →
      handle_question invoke sqldf df question session = .text s) := by
  refine ⟨fun h => ?_, fun h1 h2 h3 => ?_, fun h1 h2 h3 => ?_⟩ <;>
    simp only [handle_question, hs]
  · rw [classify_response_warning s h]
  · rw [classify_response_query s h1 h2 h3]
  · rw [classify_response_text s h1 h2 h3]

/-- C2 witness: a lowercase SELECT response is dispatched to the evaluator. -/
theorem handle_question_dispatch_witness :
    handle_question (fun _ _ => "select * from df") (fun _ _ => PyOutcome.ok none)
        ⟨[]⟩ "show all rows" [] =
      .queryRun "select * from df"
        (run_pandasql_query (fun _ _ => PyOutcome.ok none) "select * from df" ⟨[]⟩) :=
  (handle_question_dispatch (fun _ _ => "select * from df") (fun _ _ => PyOutcome.ok none)
      ⟨[]⟩ "show all rows" [] "select * from df" rfl).2.1
    (by with_unfolding_all decide) (by with_unfolding_all decide)
    (by with_unfolding_all decide)

/-- C4: on a loaded frame and a present column, `get_column_statistics` is a
pure delegation: it returns exactly the rendering of the external
`describe` call on that column, whatever that rendering is. -/
theorem get_column_statistics_delegates (describe : ColData → String)
    (f : Frame) (column_name : String) (c : ColData)
    (h : f.getCol column_name = some c) :
    get_column_statistics describe (some f) column_name = describe c := by
  simp [get_column_statistics, h]

/-- C4 witness: a concrete frame and a concrete describe rendering. -/
theorem get_column_statistics_delegates_witness :
    get_column_statistics (fun _ => "count 2")
      (some ⟨[("a", ColData.numeric [3, 4])]⟩) "a" = "count 2" :=
  get_column_statistics_delegates (fun _ => "count 2")
    ⟨[("a", ColData.numeric [3, 4])]⟩ "a" (ColData.numeric [3, 4]) rfl

/-- C5: `get_dataframe_shape` renders exactly the frame's row and column
counts, and reports an unloaded frame on `None`. -/
theorem get_dataframe_shape_spec (f : Frame) :
    get_dataframe_shape (some f) =
      s!"The DataFrame has {f.nrows} rows and {f.ncols} columns." ∧
    get_dataframe_shape none = "DataFrame is not loaded." :=
  ⟨rfl, rfl⟩

/-- C6: the three helpers are pure with respect to the table: threading the
table state through each call leaves it unchanged, the returned string is a
function of the arguments alone, and a second call on the same (unchanged)
state returns the same string. -/
theorem helpers_pure (describe : ColData → String) (df : Option Frame) (col : String) :
    (get_dataframe_shape_run df).2 = df ∧
    (get_column_statistics_run describe col df).2 = df ∧
    (detect_outliers_iqr_run col df).2 = df ∧
    (get_dataframe_shape_run df).1 = get_dataframe_shape df ∧
    (get_column_statistics_run describe col df).1 = get_column_statistics describe df col ∧
    (detect_outliers_iqr_run col df).1 = detect_outliers_iqr df col ∧
    (get_dataframe_shape_run (get_dataframe_shape_run df).2).1 =
      (get_dataframe_shape_run df).1 ∧
    (get_column_statistics_run describe col (get_column_statistics_run describe col df).2).1 =
      (get_column_statistics_run describe col df).1 ∧
    (detect_outliers_iqr_run col (detect_outliers_iqr_run col df).2).1 =
      (detect_outliers_iqr_run col df).1 := by
  simp [get_dataframe_shape_run_eq, get_column_statistics_run_eq, detect_outliers_iqr_run_eq]

/-- `pandasql.sqldf` on a statement that produces no result set: pandasql
catches the evaluator's no-result signal and returns Python `None` (the
caller in `app.py` line 210 guards `result is not None` for this case). -/
def sqldf_noResult : String → List (String × Frame) → PyOutcome (Option Frame) :=
  fun _ _ => .ok none

/-- C3 counterexample: on a no-result-set statement `run_pandasql_query`
returns `(None, None)` — it is false that exactly one component of the pair
is `None`. -/
theorem run_pandasql_query_both_none :
    ¬(((run_pandasql_query sqldf_noResult "CREATE TABLE t (a INT)" ⟨[]⟩).1 = none ∧
        (run_pandasql_query sqldf_noResult "CREATE TABLE t (a INT)" ⟨[]⟩).2 ≠ none) ∨
      ((run_pandasql_query sqldf_noResult "CREATE TABLE t (a INT)" ⟨[]⟩).1 ≠ none ∧
        (run_pandasql_query sqldf_noResult "CREATE TABLE t (a INT)" ⟨[]⟩).2 = none)) := by
  with_unfolding_all decide

/-- C3 (amended): `load_data` and `run_pandasql_query` never raise;
`load_data` always returns exactly one `None` component, with the distinct
file-not-found message and with other exception texts embedded; and
`run_pandasql_query` returns `(result, None)` on success and
`(None, message-embedding-the-exception)` on an exception — but its success
`result` is whatever the evaluator returned and may itself be `None`. -/
theorem load_and_query_error_handling (read_excel : String → ReadExcelOutcome)
    (path : String)
    (sqldf : String → List (String × Frame) → PyOutcome (Option Frame))
    (q : String) (df : Frame) :
    ((load_data read_excel path).1 = none ↔ ¬(load_data read_excel path).2 = none) ∧
    (read_excel path = .fileNotFound →
      load_data read_excel path =
        (none, some s!"Error: The file '{path}' was not found.")) ∧
    (∀ e, read_excel path = .err e →
      load_data read_excel path = (none, some s!"Error loading Excel file: {e}")) ∧
    (∀ v, sqldf q (query_env df) = .ok v → run_pandasql_query sqldf q df = (v, none)) ∧
    (∀ e, sqldf q (query_env df) = .exc e →
      run_pandasql_query sqldf q df =
        (none, some s!"Error running SQL query: {e}")) := by
  refine ⟨?_, fun h => ?_, fun e h => ?_, fun v h => ?_, fun e h => ?_⟩
  · cases h : read_excel path <;> simp [load_data, h]
  · simp [load_data, h]
  · simp [load_data, h]
  · simp [run_pandasql_query, h]
  · simp [run_pandasql_query, h]

/-- C3 witness: a missing file and a successful SELECT. -/
theorem load_and_query_error_handling_witness :
    load_data (fun _ => ReadExcelOutcome.fileNotFound) "data.xlsx" =
      (none, some "Error: The file 'data.xlsx' was not found.") ∧
    run_pandasql_query (fun _ _ => PyOutcome.ok (some ⟨[]⟩)) "SELECT * FROM df" ⟨[]⟩ =
      (some ⟨[]⟩, none) := by
  constructor
  · have h := (load_and_query_error_handling (fun _ => ReadExcelOutcome.fileNotFound)
      "data.xlsx" (fun _ _ => PyOutcome.ok (some ⟨[]⟩)) "SELECT * FROM df" ⟨[]⟩).2.1 rfl
    rw [h]
    with_unfolding_all decide
  · exact (load_and_query_error_handling (fun _ => ReadExcelOutcome.fileNotFound)
      "data.xlsx" (fun _ _ => PyOutcome.ok (some ⟨[]⟩)) "SELECT * FROM df" ⟨[]⟩).2.2.2.1
      (some ⟨[]⟩) rfl

/-- C7: the environment a generated query is evaluated against holds exactly
one table, named `df`, bound to the loaded frame; and the outcome of
`run_pandasql_query` depends on the evaluator only through its value on that
one-table environment. -/
theorem query_env_only_df
    (sqldf1 sqldf2 : String → List (String × Frame) → PyOutcome (Option Frame))
    (q : String) (df fr : Frame) (nm : String) :
    ((nm, fr) ∈ query_env df ↔ nm = "df" ∧ fr = df) ∧
    (sqldf1 q (query_env df) = sqldf2 q (query_env df) →
      run_pandasql_query sqldf1 q df = run_pandasql_query sqldf2 q df) := by
  constructor
  · simp [query_env, Prod.ext_iff]
  · intro h
    simp [run_pandasql_query, h]

/-- C7 witness: two evaluators that agree on the one-table environment give
the same wrapper outcome. -/
theorem query_env_only_df_witness :
    run_pandasql_query (fun _ _ => PyOutcome.ok none) "SELECT 1" ⟨[]⟩ =
      run_pandasql_query
        (fun _ env => if env.length = 1 then PyOutcome.ok none else PyOutcome.exc "no table")
        "SELECT 1" ⟨[]⟩ :=
  (query_env_only_df (fun _ _ => PyOutcome.ok none)
      (fun _ env => if env.length = 1 then PyOutcome.ok none else PyOutcome.exc "no table")
      "SELECT 1" ⟨[]⟩ ⟨[]⟩ "df").2 (by with_unfolding_all decide)

/-- C8: the agent executor is always invoked with an empty chat history, so
the handler's output on a question and a loaded frame is the same whatever
interaction history the session has accumulated. -/
theorem handle_question_ignores_history
    (invoke : Frame → AgentCall → String)
    (sqldf : String → List (String × Frame) → PyOutcome (Option Frame))
    (df : Frame) (question : String) (s1 s2 : List String) :
    handle_question invoke sqldf df question s1 =
      handle_question invoke sqldf df question s2 := rfl

/-- C9: whenever the Excel read succeeds, `load_data` returns a frame with
no column named `Unnamed: 0` and no error; all other columns are passed
through unchanged, in order. -/
theorem load_data_drops_unnamed (read_excel : String → ReadExcelOutcome)
    (path : String) (f : Frame) (h : read_excel path = .ok f) :
    ∃ g : Frame, load_data read_excel path = (some g, none) ∧
      "Unnamed: 0" ∉ g.names ∧
      g.cols = f.cols.filter (fun p => p.1 ≠ "Unnamed: 0") := by
  by_cases hmem : "Unnamed: 0" ∈ f.names
  · refine ⟨f.dropColumn "Unnamed: 0", by simp [load_data, h, hmem], ?_, rfl⟩
    simp only [Frame.names, Frame.dropColumn, List.mem_map]
    rintro ⟨p, hp, hfst⟩
    rw [List.mem_filter] at hp
    have hne := hp.2
    simp only [ne_eq, decide_not, Bool.not_eq_eq_eq_not, Bool.not_true,
      decide_eq_false_iff_not] at hne
    exact hne hfst
  · refine ⟨f, by simp [load_data, h, hmem], hmem, ?_⟩
    symm
    rw [List.filter_eq_self]
    intro p hp
    have hne : p.1 ≠ "Unnamed: 0" :=
      fun hfst => hmem (hfst ▸ List.mem_map_of_mem Prod.fst hp)
    simp [hne]

/-- C9 witness: a frame carrying an `Unnamed: 0` column. -/
theorem load_data_drops_unnamed_witness :
    ∃ g : Frame,
      load_data
        (fun _ => ReadExcelOutcome.ok
          ⟨[("Unnamed: 0", ColData.numeric [0]), ("a", ColData.textual ["u"])]⟩)
        "t.xlsx" = (some g, none) ∧
      "Unnamed: 0" ∉ g.names ∧
      g.cols = [("Unnamed: 0", ColData.numeric [0]),
        ("a", ColData.textual ["u"])].filter (fun p => p.1 ≠ "Unnamed: 0") :=
  load_data_drops_unnamed
    (fun _ => ReadExcelOutcome.ok
      ⟨[("Unnamed: 0", ColData.numeric [0]), ("a", ColData.textual ["u"])]⟩)
    "t.xlsx"
    ⟨[("Unnamed: 0", ColData.numeric [0]), ("a", ColData.textual ["u"])]⟩ rfl

/-- C10: the guard branches of `get_column_statistics` and
`detect_outliers_iqr` are total: a `None` frame, a missing column, and a
non-numeric column each return their fixed message (the non-numeric message
is a constant independent of the column's values, so no quantile enters),
and no case raises. -/
theorem helpers_guard_spec (describe : ColData → String) (f : Frame)
    (col : String) (tvals : List String) :
    get_column_statistics describe none col = "DataFrame is not loaded." ∧
    detect_outliers_iqr none col = "DataFrame is not loaded." ∧
    (col ∉ f.names →
      get_column_statistics describe (some f) col =
        s!"Column '{col}' not found in the DataFrame." ∧
      detect_outliers_iqr (some f) col =
        s!"Column '{col}' not found in the DataFrame.") ∧
    (f.getCol col = some (.textual tvals) →
      detect_outliers_iqr (some f) col =
        s!"Outlier detection (IQR method) is only applicable to numerical columns. '{col}' is not numerical.") := by
  refine ⟨rfl, rfl, fun hmem => ?_, fun htext => ?_⟩
  · have h := getCol_eq_none_of_not_mem f col hmem
    exact ⟨by simp [get_column_statistics, h], by simp [detect_outliers_iqr, h]⟩
  · simp [detect_outliers_iqr, htext]

/-- C10 witness: a missing column and a textual column. -/
theorem helpers_guard_spec_witness :
    get_column_statistics (fun _ => "") (some ⟨[("name", ColData.textual ["u"])]⟩) "zz" =
      "Column 'zz' not found in the DataFrame." ∧
    detect_outliers_iqr (some ⟨[("name", ColData.textual ["u"])]⟩) "name" =
      "Outlier detection (IQR method) is only applicable to numerical columns. 'name' is not numerical." := by
  constructor
  · have h := ((helpers_guard_spec (fun _ => "") ⟨[("name", ColData.textual ["u"])]⟩
      "zz" []).2.2.1 (by with_unfolding_all decide)).1
    rw [h]
    with_unfolding_all decide
  · have h := (helpers_guard_spec (fun _ => "") ⟨[("name", ColData.textual ["u"])]⟩
      "name" ["u"]).2.2.2 (by with_unfolding_all decide)
    rw [h]
    with_unfolding_all decide
